import Mathlib

/-
Verification development for the Schedule Proposal & Retrieval Engine of the
HackHarvardTeam calendar assistant (gemini_calendar_chat.py,
gemini_calendar_assistant.py, supabase-integration/embedding_service.py).

The Python code is shallowly embedded: timestamps that the code parses with
datetime.fromisoformat are modelled as integers on a single timeline (only
their ordering is ever used); the hour-of-day extracted from a parsed start
time is modelled as a natural number; Python dictionaries returned from the
helper functions are modelled as structures; a function that can raise and
whose caller catches the exception is modelled with an explicit error case.
All definitions are executable.
-/

set_option maxRecDepth 8000

namespace HackCal

/-- Result of a Python helper that returns either a success dict or an
error dict produced by its `except` clause. -/
inductive PyResult (α : Type) where
  | ok : α → PyResult α
  | error : String → PyResult α
  deriving DecidableEq, Repr

/-- Does the result carry a success payload? -/
def PyResult.isOk {α : Type} : PyResult α → Bool
  | .ok _ => true
  | .error _ => false

/-! ## Interval conflict detector

`_events_overlap` and `_analyze_schedule_conflicts`
(gemini_calendar_chat.py lines 695-719 and 751-758; the copy in
gemini_calendar_assistant.py lines 633-664 is identical up to the extra
constant `severity` field in the emitted dict).

An event dict `{'start': ..., 'end': ...}` whose two fields parse as
timestamps is modelled by its two parsed instants.  `end` is a Lean keyword,
so the field is called `stop`. -/

/-- An event whose `start` and `end` strings parse as timestamps,
represented by the parsed instants on a single integer timeline. -/
structure Event where
  start : Int
  stop : Int
  deriving DecidableEq, Repr

instance : Inhabited Event := ⟨⟨0, 0⟩⟩

/-- `_events_overlap(event1, event2)`: `start1 < end2 and start2 < end1`. -/
def eventsOverlap (event1 event2 : Event) : Bool :=
  decide (event1.start < event2.stop ∧ event2.start < event1.stop)

/-- The index pairs collected by the nested loops of
`_analyze_schedule_conflicts`: `for i, event1 in enumerate(events):
for j, event2 in enumerate(events[i+1:], i+1): if overlap: append`.
The emitted conflict dict stores the two event dicts (plus the constant
`type`/`severity` strings); the pair of positions determines it. -/
def conflictPairs (events : List Event) : List (Nat × Nat) :=
  (List.range events.length).flatMap (fun i =>
    ((List.range events.length).filter (fun j =>
        decide (i < j) && eventsOverlap (events.getD i default) (events.getD j default))).map
      (fun j => (i, j)))

/-- `_analyze_schedule_conflicts(events)`.  With every `start`/`end` already
parsed, nothing inside the `try` block can raise, so the `except` branch
(which would return an error dict) is unreachable and the function always
returns the success dict with the collected conflicts. -/
def analyzeScheduleConflicts (events : List Event) : PyResult (List (Nat × Nat)) :=
  PyResult.ok (conflictPairs events)

/-! ## Sleep impact estimator

`_assess_sleep_impact` and `_calculate_sleep_hours`
(gemini_calendar_chat.py lines 721-749 and 760-773).  Only
`datetime.fromisoformat(event['start']).hour` is used, so an event is
modelled by that hour. -/

/-- An event as seen by the sleep estimator: the hour-of-day of its parsed
start time. -/
structure SleepEvent where
  startHour : Nat
  deriving DecidableEq, Repr

/-- The success dict returned by `_assess_sleep_impact`. -/
structure SleepAssessment where
  estimatedSleepHours : ℚ
  belowTarget : Bool
  eveningCount : Nat
  morningCount : Nat
  deriving DecidableEq, Repr

/-- `_calculate_sleep_hours(evening_events, morning_events)`. -/
def calculateSleepHours (eveningEvents morningEvents : List SleepEvent) : ℚ :=
  let lateEvening := eveningEvents.filter (fun e => decide (22 ≤ e.startHour))
  let earlyMorning := morningEvents.filter (fun e => decide (e.startHour ≤ 7))
  if lateEvening.length = 0 ∧ earlyMorning.length = 0 then 8
  else if 0 < lateEvening.length then 6
  else 7

/-- `_assess_sleep_impact(events, sleep_target_hours)`.  The classification
loop is `if hour >= 18: evening elif hour <= 8: morning`. -/
def assessSleepImpact (events : List SleepEvent) (sleepTargetHours : ℚ) :
    SleepAssessment :=
  let eveningEvents := events.filter (fun e => decide (18 ≤ e.startHour))
  let morningEvents := events.filter (fun e =>
    decide (¬ 18 ≤ e.startHour) && decide (e.startHour ≤ 8))
  let estimated := calculateSleepHours eveningEvents morningEvents
  { estimatedSleepHours := estimated
    belowTarget := decide (estimated < sleepTargetHours)
    eveningCount := eveningEvents.length
    morningCount := morningEvents.length }

/-- The assessment described by the specification, §4.2: evening iff hour ≥
18, morning iff hour ≤ 8, lateEvening iff hour ≥ 22, earlyMorning iff hour
≤ 7, estimated sleep by first-match rules 8.0 / 6.0 / 7.0, belowTarget =
estimated < target. -/
def specSleepAssessment (events : List SleepEvent) (sleepTargetHours : ℚ) :
    SleepAssessment :=
  let anyLate := events.any (fun e => decide (22 ≤ e.startHour))
  let anyEarly := events.any (fun e => decide (e.startHour ≤ 7))
  let estimated : ℚ := if ¬ anyLate = true ∧ ¬ anyEarly = true then 8
    else if anyLate = true then 6 else 7
  { estimatedSleepHours := estimated
    belowTarget := decide (estimated < sleepTargetHours)
    eveningCount := (events.filter (fun e => decide (18 ≤ e.startHour))).length
    morningCount := (events.filter (fun e => decide (e.startHour ≤ 8))).length }

/-! ## Python string helpers

`'kw' in s`, `s.lower()` and `s.split()` as used by the proposal builder,
the clarifying-question classifier and the fallback embedding.  `lower` and
`split` are modelled on the ASCII characters these code paths feed them. -/

/-- Does `needle` occur at the head of `hay`? -/
def matchesAt : List Char → List Char → Bool
  | [], _ => true
  | _ :: _, [] => false
  | c :: cs, d :: ds => c = d && matchesAt cs ds

/-- Does `needle` occur contiguously anywhere in the list? -/
def containsSeq (needle : List Char) : List Char → Bool
  | [] => matchesAt needle []
  | c :: rest => matchesAt needle (c :: rest) || containsSeq needle rest

/-- Python `needle in hay` on strings: contiguous substring test. -/
def hasSubstr (hay needle : String) : Bool :=
  containsSeq needle.data hay.data

/-- Python `s.lower()` (ASCII range). -/
def pyLower (s : String) : String :=
  String.mk (s.data.map Char.toLower)

/-- Python `s.split()` with no separator: split on whitespace runs and
drop empty pieces. -/
def pySplit (s : String) : List String :=
  ((s.data.splitOnP Char.isWhitespace).map String.mk).filter (fun w => w ≠ "")

/-! ## Proposal builder

`_generate_proposal_changes` exists twice: gemini_calendar_chat.py lines
610-693 (triggers hectic/busy, sleep/tired, meeting/conflict, plus a
generic fallback) and gemini_calendar_assistant.py lines 589-631 (triggers
hectic/busy and sleep only, no fallback).  The `id` fields are fresh
`uuid.uuid4().hex[:8]` strings; they carry no information tested by any
claim and are omitted from the model. -/

/-- The `CalendarEvent` a generated change carries (deterministic fields). -/
structure ChangeEvent where
  title : String
  start : String
  stop : String
  durationMinutes : Nat
  source : String
  changeType : String
  deriving DecidableEq, Repr

/-- A `ChangeItem` (deterministic fields). -/
structure ChangeItem where
  type : String
  event : ChangeEvent
  targetEventId : Option String
  rationale : String
  deriving DecidableEq, Repr

/-- Change appended by the hectic/busy trigger of the chat builder. -/
def focusTimeChange : ChangeItem :=
  { type := "add"
    event := { title := "Focus Time", start := "2025-01-15T09:00:00Z",
               stop := "2025-01-15T11:00:00Z", durationMinutes := 120,
               source := "proposed", changeType := "add" }
    targetEventId := none
    rationale := "Added dedicated focus time to reduce hectic schedule and improve productivity" }

/-- Change appended by the sleep/tired trigger of the chat builder. -/
def eveningMoveChange : ChangeItem :=
  { type := "move"
    event := { title := "Evening Activity", start := "2025-01-15T18:00:00Z",
               stop := "2025-01-15T19:00:00Z", durationMinutes := 60,
               source := "proposed", changeType := "move" }
    targetEventId := some "existing_evening_event"
    rationale := "Moved evening activity earlier to improve sleep schedule and ensure adequate rest" }

/-- Change appended by the meeting/conflict trigger of the chat builder. -/
def meetingAdjustChange : ChangeItem :=
  { type := "adjust"
    event := { title := "Meeting Adjustment", start := "2025-01-15T10:30:00Z",
               stop := "2025-01-15T11:30:00Z", durationMinutes := 60,
               source := "proposed", changeType := "adjust" }
    targetEventId := some "conflicting_meeting"
    rationale := "Adjusted meeting time to resolve scheduling conflicts" }

/-- Generic change appended by the chat builder when no trigger fired. -/
def optimizationBlockChange : ChangeItem :=
  { type := "add"
    event := { title := "Optimization Block", start := "2025-01-15T14:00:00Z",
               stop := "2025-01-15T15:00:00Z", durationMinutes := 60,
               source := "proposed", changeType := "add" }
    targetEventId := none
    rationale := "Added optimization block to improve overall schedule balance" }

/-- Change appended by the hectic/busy trigger of the assistant builder
(same fields, shorter rationale). -/
def focusTimeChangeA : ChangeItem :=
  { type := "add"
    event := { title := "Focus Time", start := "2025-01-15T09:00:00Z",
               stop := "2025-01-15T11:00:00Z", durationMinutes := 120,
               source := "proposed", changeType := "add" }
    targetEventId := none
    rationale := "Added dedicated focus time to reduce hectic schedule" }

/-- Change appended by the sleep trigger of the assistant builder. -/
def eveningMoveChangeA : ChangeItem :=
  { type := "move"
    event := { title := "Evening Activity", start := "2025-01-15T18:00:00Z",
               stop := "2025-01-15T19:00:00Z", durationMinutes := 60,
               source := "proposed", changeType := "move" }
    targetEventId := some "existing_evening_event"
    rationale := "Moved evening activity earlier to improve sleep schedule" }

/-- `_generate_proposal_changes(problem, constraints)` of
gemini_calendar_chat.py.  `constraints` is never read. -/
def generateProposalChangesChat (problem : String) : List ChangeItem :=
  let lower := pyLower problem
  let changes : List ChangeItem := []
  let changes := if hasSubstr lower "hectic" || hasSubstr lower "busy" then
    changes ++ [focusTimeChange] else changes
  let changes := if hasSubstr lower "sleep" || hasSubstr lower "tired" then
    changes ++ [eveningMoveChange] else changes
  let changes := if hasSubstr lower "meeting" || hasSubstr lower "conflict" then
    changes ++ [meetingAdjustChange] else changes
  if changes = [] then [optimizationBlockChange] else changes

/-- `_generate_proposal_changes(problem, constraints)` of
gemini_calendar_assistant.py: only two triggers and no fallback. -/
def generateProposalChangesAssistant (problem : String) : List ChangeItem :=
  let lower := pyLower problem
  let changes : List ChangeItem := []
  let changes := if hasSubstr lower "hectic" || hasSubstr lower "busy" then
    changes ++ [focusTimeChangeA] else changes
  let changes := if hasSubstr lower "sleep" then
    changes ++ [eveningMoveChangeA] else changes
  changes

/-! ## Conversation context, proposals, and the per-turn entry points

`ConversationContext` (both files), `_generate_schedule_proposal`
(chat lines 569-608, assistant lines 550-587), `_is_clarifying_question`
(chat lines 813-817), `_process_gemini_response` (assistant lines 392-435),
`process_user_input` (assistant lines 308-339) and
`chat_with_calendar_context` (chat lines 313-348).

The external Gemini call `generate_content` is the collaborator; a turn is
modelled as a function of the collaborator outcome (either the raw text of
the response on the no-function-call path, or its failure).  Fresh uuid ids
and wall-clock `created_at` strings are parameters / omitted. -/

/-- A `Proposal` (deterministic fields; `created_at` omitted). -/
structure Proposal where
  id : String
  revision : Nat
  changes : List ChangeItem
  summary : String
  status : String
  previousProposalId : Option String
  deriving DecidableEq, Repr

/-- The `ConversationContext` fields the state machine mutates. -/
structure Context where
  problemStatement : String
  clarifyingQuestions : List String
  userAnswers : List String
  proposals : List Proposal
  deriving DecidableEq, Repr

/-- A fresh `ConversationContext()`. -/
def initContext : Context :=
  { problemStatement := "", clarifyingQuestions := [], userAnswers := [],
    proposals := [] }

/-- `_generate_schedule_proposal(problem_description, ...)` of
gemini_calendar_chat.py: builds a `Proposal(id=..., revision=1, ...)`
(the dataclass default leaves `previous_proposal_id = None` and
`status = 'pending'`) and appends it to `context.proposals`.  `pid` stands
for the fresh `proposal_{uuid}` string. -/
def generateScheduleProposal (ctx : Context) (pid : String)
    (problemDescription : String) : Context × Proposal :=
  let prop : Proposal :=
    { id := pid
      revision := 1
      changes := generateProposalChangesChat problemDescription
      summary := "Schedule optimization for: " ++ problemDescription
      status := "pending"
      previousProposalId := none }
  ({ ctx with proposals := ctx.proposals ++ [prop] }, prop)

/-- A Python runtime error surfaced by a modelled helper. -/
inductive PyError where
  | attributeError : String → PyError
  deriving DecidableEq, Repr

instance {ε α : Type} [DecidableEq ε] [DecidableEq α] : DecidableEq (Except ε α) :=
  fun x y =>
    match x, y with
    | Except.ok a, Except.ok b =>
        if h : a = b then isTrue (by rw [h]) else isFalse (by simp [h])
    | Except.ok _, Except.error _ => isFalse (by simp)
    | Except.error _, Except.ok _ => isFalse (by simp)
    | Except.error e, Except.error f =>
        if h : e = f then isTrue (by rw [h]) else isFalse (by simp [h])

/-- `_is_clarifying_question(response)` of gemini_calendar_chat.py:

`return ('?' in response and
         len(self.context.user_answers) < len(self.context.clarifying_questions) and
         not response.lower().includes('proposal'))`

Python `and` short-circuits left to right, so the third conjunct is only
evaluated when the first two are true — and `str` has no method `includes`
(a JavaScript idiom), so that evaluation raises `AttributeError`. -/
def isClarifyingQuestion (ctx : Context) (response : String) :
    Except PyError Bool :=
  if hasSubstr response "?" = false then Except.ok false
  else if ¬ ctx.userAnswers.length < ctx.clarifyingQuestions.length then
    Except.ok false
  else Except.error (PyError.attributeError "str object has no attribute includes")

/-- The classification test used by `_process_gemini_response` of
gemini_calendar_assistant.py line 415:
`'?' in response_text and len(user_answers) < len(clarifying_questions)` —
it never consults the word `proposal`. -/
def assistantClassifiesQuestion (ctx : Context) (responseText : String) : Bool :=
  hasSubstr responseText "?" && decide (ctx.userAnswers.length < ctx.clarifyingQuestions.length)

/-- The structured result dict returned to the caller of a turn. -/
inductive TurnResult where
  | errorResult (message : String) (suggestions : List String)
  | clarifyingQuestion (question : String)
  | proposalResult (message : String)
  | response (message : String)
  deriving DecidableEq, Repr

/-- Is this the `{type: error, message, suggestions}` shape? -/
def TurnResult.isError : TurnResult → Bool
  | .errorResult _ _ => true
  | _ => false

/-- `_process_gemini_response(response, user_input)` of
gemini_calendar_assistant.py, no-function-call path: classify the raw text,
appending it to `clarifying_questions` when classified. -/
def processGeminiResponse (ctx : Context) (responseText : String) :
    TurnResult × Context :=
  if assistantClassifiesQuestion ctx responseText then
    (TurnResult.clarifyingQuestion responseText,
     { ctx with clarifyingQuestions := ctx.clarifyingQuestions ++ [responseText] })
  else if hasSubstr (pyLower responseText) "proposal" ||
      hasSubstr (pyLower responseText) "schedule" then
    (TurnResult.proposalResult responseText, ctx)
  else
    (TurnResult.response responseText, ctx)

/-- `process_user_input(user_input)` of gemini_calendar_assistant.py.
`gen` is the outcome of the external `generate_content` call: the raw text
of a response without function calls, or a raised exception.  The problem
statement is stored *before* the call; a raised exception is caught at the
end and converted to the error dict, with the context as mutated so far. -/
def processUserInput (ctx : Context) (userInput : String)
    (gen : Except String String) : TurnResult × Context :=
  let ctx1 := if ctx.problemStatement = "" then
    { ctx with problemStatement := userInput } else ctx
  match gen with
  | Except.error e =>
      (TurnResult.errorResult ("I encountered an error: " ++ e)
        ["Try rephrasing your request", "Check your calendar permissions"],
       ctx1)
  | Except.ok responseText => processGeminiResponse ctx1 responseText

/-- `_process_enhanced_response` of gemini_calendar_chat.py,
no-function-call path (lines 434-444): run `_is_clarifying_question`; its
`AttributeError` propagates to the caller; on `False`, record the user
input as an answer when questions outnumber answers. -/
def processEnhancedResponse (ctx : Context) (responseText userInput : String) :
    Except PyError (String × Context) :=
  match isClarifyingQuestion ctx responseText with
  | Except.error e => Except.error e
  | Except.ok true =>
      Except.ok (responseText,
        { ctx with clarifyingQuestions := ctx.clarifyingQuestions ++ [responseText] })
  | Except.ok false =>
      if ctx.userAnswers.length < ctx.clarifyingQuestions.length then
        Except.ok (responseText,
          { ctx with userAnswers := ctx.userAnswers ++ [userInput] })
      else Except.ok (responseText, ctx)

/-- `chat_with_calendar_context(user_input)` of gemini_calendar_chat.py.
Stores the problem statement before the call; any exception (a failed
collaborator call, or the `AttributeError` out of
`_is_clarifying_question`) is caught at line 345 and converted to a plain
`"I encountered an error: ..."` string, with the context as mutated so
far. -/
def chatWithCalendarContext (ctx : Context) (userInput : String)
    (gen : Except String String) : String × Context :=
  let ctx1 := if ctx.problemStatement = "" then
    { ctx with problemStatement := userInput } else ctx
  match gen with
  | Except.error e => ("I encountered an error: " ++ e, ctx1)
  | Except.ok responseText =>
      match processEnhancedResponse ctx1 responseText userInput with
      | Except.error (PyError.attributeError m) =>
          ("I encountered an error: " ++ m, ctx1)
      | Except.ok (out, ctx2) => (out, ctx2)

/-- Contexts reachable from a fresh session through the operations that
mutate a `ConversationContext` in the source: storing the first problem
statement, appending a clarifying question, appending an answer, and
`_generate_schedule_proposal`. -/
inductive Reachable : Context → Prop where
  | init : Reachable initContext
  | setProblem (ctx : Context) (s : String) : Reachable ctx →
      ctx.problemStatement = "" →
      Reachable { ctx with problemStatement := s }
  | askQuestion (ctx : Context) (q : String) : Reachable ctx →
      Reachable { ctx with clarifyingQuestions := ctx.clarifyingQuestions ++ [q] }
  | recordAnswer (ctx : Context) (a : String) : Reachable ctx →
      Reachable { ctx with userAnswers := ctx.userAnswers ++ [a] }
  | propose (ctx : Context) (pid problem : String) : Reachable ctx →
      Reachable (generateScheduleProposal ctx pid problem).1

/-- A concrete reachable context: one proposal generated into a fresh
session (the uuid argument stands for the generated hex id). -/
def demoContext : Context :=
  (generateScheduleProposal initContext "proposal_ab12cd34" "my schedule is so hectic").1

/-- The proposal generated into `demoContext`. -/
def demoProposal : Proposal :=
  (generateScheduleProposal initContext "proposal_ab12cd34" "my schedule is so hectic").2

/-! ## Cosine similarity

`similarity(embedding1, embedding2)` of
supabase-integration/embedding_service.py lines 155-184.  The values the
claims test (the `0.0` guard results) involve only exact float constants,
so vector entries are modelled as rationals; the cosine value itself needs
a real square root.  `np.dot` on two one-dimensional arrays of different
lengths raises `ValueError`, which the `except` clause converts to `0.0`;
that is the first branch below. -/

/-- Sum of coordinatewise products (`np.dot` on equal-length vectors). -/
def dotList (a b : List ℚ) : ℚ :=
  (List.zipWith (fun x y => x * y) a b).sum

/-- Squared Euclidean norm; `np.linalg.norm(v)` is zero exactly when this
is zero. -/
def normSq (a : List ℚ) : ℚ :=
  (a.map (fun x => x * x)).sum

/-- `similarity(embedding1, embedding2)`: 0.0 out of the `except` clause
when the lengths differ, 0.0 when either norm is zero, otherwise the
cosine. -/
noncomputable def similarity (a b : List ℚ) : ℝ :=
  if a.length ≠ b.length then 0
  else if normSq a = 0 ∨ normSq b = 0 then 0
  else (dotList a b : ℝ) /
    (Real.sqrt (normSq a : ℝ) * Real.sqrt (normSq b : ℝ))

/-! ## MD5

`_generate_fallback_embedding` hashes with `hashlib.md5`; the algorithm
(RFC 1321) is implemented here over byte lists, with 32-bit words as
naturals reduced mod 2^32.  Correctness is anchored below by theorems
reproducing published MD5 test vectors. -/

/-- Rotate a 32-bit word left by `s` (0 < s < 32): the low `32 - s` bits
move up, the high `s` bits move down. -/
def rotl32 (x s : Nat) : Nat :=
  (x % 2 ^ (32 - s)) * 2 ^ s + x / 2 ^ (32 - s)

/-- Bitwise complement on 32-bit words. -/
def compl32 (x : Nat) : Nat :=
  Nat.xor x 4294967295

/-- The 64 sine-derived constants `K` of RFC 1321. -/
def md5K : List Nat :=
  [3614090360, 3905402710, 606105819, 3250441966, 4118548399, 1200080426, 2821735955, 4249261313,
   1770035416, 2336552879, 4294925233, 2304563134, 1804603682, 4254626195, 2792965006, 1236535329,
   4129170786, 3225465664, 643717713, 3921069994, 3593408605, 38016083, 3634488961, 3889429448,
   568446438, 3275163606, 4107603335, 1163531501, 2850285829, 4243563512, 1735328473, 2368359562,
   4294588738, 2272392833, 1839030562, 4259657740, 2763975236, 1272893353, 4139469664, 3200236656,
   681279174, 3936430074, 3572445317, 76029189, 3654602809, 3873151461, 530742520, 3299628645,
   4096336452, 1126891415, 2878612391, 4237533241, 1700485571, 2399980690, 4293915773, 2240044497,
   1873313359, 4264355552, 2734768916, 1309151649, 4149444226, 3174756917, 718787259, 3951481745]

/-- The per-round left-rotation amounts of RFC 1321. -/
def md5S : List Nat :=
  [7, 12, 17, 22, 7, 12, 17, 22, 7, 12, 17, 22, 7, 12, 17, 22,
   5, 9, 14, 20, 5, 9, 14, 20, 5, 9, 14, 20, 5, 9, 14, 20,
   4, 11, 16, 23, 4, 11, 16, 23, 4, 11, 16, 23, 4, 11, 16, 23,
   6, 10, 15, 21, 6, 10, 15, 21, 6, 10, 15, 21, 6, 10, 15, 21]

/-- The running state of the compression function. -/
structure MD5State where
  a : Nat
  b : Nat
  c : Nat
  d : Nat
  deriving DecidableEq, Repr

/-- The initial chaining value. -/
def md5Init : MD5State :=
  { a := 1732584193, b := 4023233417, c := 2562383102, d := 271733878 }

/-- One of the 64 steps of the compression function; `m k` is message
word `k` of the current block. -/
def md5Step (m : Nat → Nat) (st : MD5State) (i : Nat) : MD5State :=
  let f :=
    if i < 16 then Nat.lor (Nat.land st.b st.c) (Nat.land (compl32 st.b) st.d)
    else if i < 32 then Nat.lor (Nat.land st.d st.b) (Nat.land (compl32 st.d) st.c)
    else if i < 48 then Nat.xor (Nat.xor st.b st.c) st.d
    else Nat.xor st.c (Nat.lor st.b (compl32 st.d))
  let g :=
    if i < 16 then i
    else if i < 32 then (5 * i + 1) % 16
    else if i < 48 then (3 * i + 5) % 16
    else (7 * i) % 16
  let sum := (st.a + f + (md5K.getD i 0) + m g) % 4294967296
  { a := st.d
    b := (st.b + rotl32 sum (md5S.getD i 0)) % 4294967296
    c := st.b
    d := st.c }

/-- Message word `k` (little-endian) of a 64-byte block. -/
def blockWord (block : List Nat) (k : Nat) : Nat :=
  block.getD (4 * k) 0 + block.getD (4 * k + 1) 0 * 256 +
    block.getD (4 * k + 2) 0 * 65536 + block.getD (4 * k + 3) 0 * 16777216

/-- Compress one 64-byte block into the chaining state. -/
def md5Block (st : MD5State) (block : List Nat) : MD5State :=
  let r := (List.range 64).foldl (md5Step (blockWord block)) st
  { a := (st.a + r.a) % 4294967296
    b := (st.b + r.b) % 4294967296
    c := (st.c + r.c) % 4294967296
    d := (st.d + r.d) % 4294967296 }

/-- MD5 padding: append `0x80`, zero bytes up to 56 mod 64, then the
original bit length as eight little-endian bytes. -/
def md5Pad (msg : List Nat) : List Nat :=
  let len := msg.length
  let zeros := (64 + 56 - (len + 1) % 64) % 64
  msg ++ [128] ++ List.replicate zeros 0 ++
    (List.range 8).map (fun i => len * 8 / 2 ^ (8 * i) % 256)

/-- Split a byte list into 64-byte blocks (structural recursion on a fuel
argument that bounds the number of blocks). -/
def toBlocksAux : Nat → List Nat → List (List Nat)
  | 0, _ => []
  | _, [] => []
  | fuel + 1, c :: rest => (c :: rest).take 64 :: toBlocksAux fuel ((c :: rest).drop 64)

/-- Split a byte list into 64-byte blocks. -/
def toBlocks (l : List Nat) : List (List Nat) :=
  toBlocksAux l.length l

/-- Serialize the final state as the 16 digest bytes (each word
little-endian). -/
def md5Digest (st : MD5State) : List Nat :=
  [st.a % 256, st.a / 256 % 256, st.a / 65536 % 256, st.a / 16777216 % 256,
   st.b % 256, st.b / 256 % 256, st.b / 65536 % 256, st.b / 16777216 % 256,
   st.c % 256, st.c / 256 % 256, st.c / 65536 % 256, st.c / 16777216 % 256,
   st.d % 256, st.d / 256 % 256, st.d / 65536 % 256, st.d / 16777216 % 256]

/-- `hashlib.md5(msg).digest()` as a list of 16 bytes. -/
def md5 (msg : List Nat) : List Nat :=
  md5Digest ((toBlocks (md5Pad msg)).foldl md5Block md5Init)

/-- `int(hashlib.md5(msg).hexdigest()[:8], 16)`: the first eight hex
characters of the digest are its first four bytes, read big-endian. -/
def md5hex32 (msg : List Nat) : Nat :=
  (md5 msg).getD 0 0 * 16777216 + (md5 msg).getD 1 0 * 65536 +
    (md5 msg).getD 2 0 * 256 + (md5 msg).getD 3 0

/-- The low 32 bits of the digest value `int(hexdigest, 16)`: its last
eight hex characters, i.e. the last four digest bytes read big-endian. -/
def md5low32 (msg : List Nat) : Nat :=
  (md5 msg).getD 12 0 * 16777216 + (md5 msg).getD 13 0 * 65536 +
    (md5 msg).getD 14 0 * 256 + (md5 msg).getD 15 0

/-! ## Fallback embedding

`_generate_fallback_embedding(text)` of
supabase-integration/embedding_service.py lines 108-137. -/

/-- UTF-8 encoding of one character (Python `str.encode('utf-8')`). -/
def utf8Bytes (c : Char) : List Nat :=
  let n := c.toNat
  if n < 128 then [n]
  else if n < 2048 then [192 + n / 64, 128 + n % 64]
  else if n < 65536 then [224 + n / 4096, 128 + n / 64 % 64, 128 + n % 64]
  else [240 + n / 262144, 128 + n / 4096 % 64, 128 + n / 64 % 64, 128 + n % 64]

/-- The UTF-8 bytes of a string. -/
def strBytes (s : String) : List Nat :=
  s.data.flatMap utf8Bytes

/-- `source_text` for dimension `i`:
`text_lower if i < len(text_lower) else words[i % len(words)] if words else text_lower`. -/
def fallbackSource (text : String) (i : Nat) : String :=
  let textLower := pyLower text
  let words := pySplit textLower
  if i < textLower.length then textLower
  else if words.length ≠ 0 then words.getD (i % words.length) ""
  else textLower

/-- Value of dimension `i`:
`(int(md5(f"{source_text}_{i}".encode()).hexdigest()[:8], 16) / 2**31) - 1.0`.
All floats involved are integer multiples of 2^-31 of magnitude at most 1,
hence exact; the value is modelled as a rational. -/
def fallbackDim (text : String) (i : Nat) : ℚ :=
  let source := fallbackSource text i
  (md5hex32 (strBytes (source ++ "_" ++ toString i)) : ℚ) / 2 ^ 31 - 1

/-- `_generate_fallback_embedding(text)`: the loop
`for i in range(768): hash_values.append(...)`. -/
def generateFallbackEmbedding (text : String) : List ℚ :=
  (List.range 768).map (fallbackDim text)

/-- Dimension `i` as described by the specification, §4.3: identical
derivation but taking the *low* 32 bits of the 128-bit hash value. -/
def specFallbackDim (text : String) (i : Nat) : ℚ :=
  let source := fallbackSource text i
  (md5low32 (strBytes (source ++ "_" ++ toString i)) : ℚ) / 2 ^ 31 - 1

/-- The fallback embedding as described by the specification, §4.3. -/
def specFallbackEmbedding (text : String) : List ℚ :=
  (List.range 768).map (specFallbackDim text)

/-! # Theorems

Helper lemmas first, then one theorem per claim (with witnesses and
counterexamples where applicable). -/

/-- Position pairs reported by the detector are exactly the `i < j`
pairs whose events satisfy the mutual strict-inequality overlap test. -/
theorem mem_conflictPairs (events : List Event) (i j : Nat) :
    (i, j) ∈ conflictPairs events ↔
      i < j ∧ j < events.length ∧
        eventsOverlap (events.getD i default) (events.getD j default) = true := by
  simp only [conflictPairs, List.mem_flatMap, List.mem_map, List.mem_filter,
    List.mem_range, Bool.and_eq_true, decide_eq_true_eq, Prod.mk.injEq]
  constructor
  · rintro ⟨a, ha, b, ⟨hb, hab, hov⟩, rfl, rfl⟩
    exact ⟨hab, hb, hov⟩
  · rintro ⟨hij, hj, hov⟩
    exact ⟨i, Nat.lt_trans hij hj, j, ⟨hj, hij, hov⟩, rfl, rfl⟩

/-- Each reported pair occurs exactly once in the output list. -/
theorem conflictPairs_nodup (events : List Event) :
    (conflictPairs events).Nodup := by
  unfold conflictPairs
  rw [List.nodup_flatMap]
  constructor
  · intro i _
    exact (((List.nodup_range _).filter _).map
      (fun a b h => (Prod.mk.injEq _ _ _ _ ▸ h).2))
  · refine (List.pairwise_lt_range _).imp ?_
    intro a b hab x hxa hxb
    rcases List.mem_map.mp hxa with ⟨j, _, rfl⟩
    rcases List.mem_map.mp hxb with ⟨k, _, hk⟩
    exact absurd ((Prod.mk.injEq _ _ _ _ ▸ hk).1) (Nat.ne_of_lt hab).symm

/-- The pairwise overlap test is symmetric. -/
theorem eventsOverlap_comm (e1 e2 : Event) :
    eventsOverlap e1 e2 = eventsOverlap e2 e1 := by
  unfold eventsOverlap
  rw [decide_eq_decide]
  exact and_comm

/-- Events that merely touch do not overlap. -/
theorem eventsOverlap_touching (e1 e2 : Event) (h : e1.stop = e2.start) :
    eventsOverlap e1 e2 = false := by
  unfold eventsOverlap
  simp only [decide_eq_false_iff_not]
  rintro ⟨h1, h2⟩
  omega

/-- Claim C1: for every list of events whose start and end parse as
timestamps, the conflict detector emits exactly the set of unordered pairs
(i, j), i different from j, with start_i less than end_j and start_j less than
end_i, each conflicting pair emitted exactly once; the overlap predicate is
symmetric, no event is reported as conflicting with itself, and two events
that merely touch are not a conflict. -/
theorem conflict_detector_exact_pairs (events : List Event) :
    (∀ i j : Nat, (i, j) ∈ conflictPairs events ↔
        i < j ∧ j < events.length ∧
          eventsOverlap (events.getD i default) (events.getD j default) = true)
    ∧ (conflictPairs events).Nodup
    ∧ (∀ i j : Nat, i ≠ j → i < events.length → j < events.length →
        (eventsOverlap (events.getD i default) (events.getD j default) = true ↔
          (i, j) ∈ conflictPairs events ∨ (j, i) ∈ conflictPairs events))
    ∧ (∀ i j : Nat, ¬ ((i, j) ∈ conflictPairs events ∧ (j, i) ∈ conflictPairs events))
    ∧ (∀ i : Nat, (i, i) ∉ conflictPairs events)
    ∧ (∀ e1 e2 : Event, eventsOverlap e1 e2 = eventsOverlap e2 e1)
    ∧ (∀ e1 e2 : Event, e1.stop = e2.start → eventsOverlap e1 e2 = false) := by
  refine ⟨mem_conflictPairs events, conflictPairs_nodup events, ?_, ?_, ?_,
    eventsOverlap_comm, eventsOverlap_touching⟩
  · intro i j hne hi hj
    rcases Nat.lt_or_ge i j with hij | hij
    · constructor
      · intro hov
        exact Or.inl ((mem_conflictPairs events i j).mpr ⟨hij, hj, hov⟩)
      · rintro (hm | hm)
        · exact ((mem_conflictPairs events i j).mp hm).2.2
        · rw [eventsOverlap_comm]
          exact ((mem_conflictPairs events j i).mp hm).2.2
    · have hji : j < i := Nat.lt_of_le_of_ne hij (Ne.symm hne)
      constructor
      · intro hov
        refine Or.inr ((mem_conflictPairs events j i).mpr ⟨hji, hi, ?_⟩)
        rw [eventsOverlap_comm]; exact hov
      · rintro (hm | hm)
        · exact ((mem_conflictPairs events i j).mp hm).2.2
        · rw [eventsOverlap_comm]
          exact ((mem_conflictPairs events j i).mp hm).2.2
  · rintro i j ⟨h1, h2⟩
    have a1 := ((mem_conflictPairs events i j).mp h1).1
    have a2 := ((mem_conflictPairs events j i).mp h2).1
    omega
  · intro i hm
    have := ((mem_conflictPairs events i i).mp hm).1
    omega

/-- Witness for C1 at concrete inputs: [0,10) and [5,15) conflict (as the
pair of positions (0,1), not also (1,0)), and [0,10) next to [10,20) is
not a conflict. -/
theorem conflict_detector_exact_pairs_witness :
    (0, 1) ∈ conflictPairs [⟨0, 10⟩, ⟨5, 15⟩]
    ∧ ¬ ((0, 1) ∈ conflictPairs [⟨0, 10⟩, ⟨5, 15⟩] ∧
        (1, 0) ∈ conflictPairs [⟨0, 10⟩, ⟨5, 15⟩])
    ∧ (1, 1) ∉ conflictPairs [⟨0, 10⟩, ⟨5, 15⟩]
    ∧ eventsOverlap ⟨0, 10⟩ ⟨10, 20⟩ = false := by
  have h := conflict_detector_exact_pairs [⟨0, 10⟩, ⟨5, 15⟩]
  exact ⟨(h.1 0 1).mpr (by decide), h.2.2.2.1 0 1, h.2.2.2.2.1 1,
    h.2.2.2.2.2.2 ⟨0, 10⟩ ⟨10, 20⟩ rfl⟩

/-- Counterexample to claim C2: the zero-duration event [5,5) is reported
as conflicting with [0,10), whose interval strictly contains its instant. -/
theorem zero_duration_counterexample :
    (⟨5, 5⟩ : Event).start = (⟨5, 5⟩ : Event).stop
    ∧ conflictPairs [⟨0, 10⟩, ⟨5, 5⟩] = [(0, 1)]
    ∧ eventsOverlap ⟨5, 5⟩ ⟨0, 10⟩ = true := by decide

/-- Claim C2 as amended: a zero-duration event conflicts with another event
exactly when its instant lies strictly inside the other interval; two
zero-duration events never conflict, and a zero-duration event sitting on
another event boundary is not a conflict. -/
theorem zero_duration_overlap_rule :
    (∀ a b : Event, a.start = a.stop →
      (eventsOverlap a b = true ↔ b.start < a.start ∧ a.start < b.stop))
    ∧ (∀ a b : Event, a.start = a.stop → b.start = b.stop →
        eventsOverlap a b = false) := by
  constructor
  · intro a b ha
    unfold eventsOverlap
    rw [decide_eq_true_eq]
    omega
  · intro a b ha hb
    unfold eventsOverlap
    simp only [decide_eq_false_iff_not]
    omega

/-- Witness for the amended C2 at concrete inputs. -/
theorem zero_duration_overlap_rule_witness :
    (eventsOverlap ⟨5, 5⟩ ⟨0, 10⟩ = true ↔ (0 : Int) < 5 ∧ (5 : Int) < 10)
    ∧ eventsOverlap ⟨5, 5⟩ ⟨7, 7⟩ = false :=
  ⟨(zero_duration_overlap_rule.1 ⟨5, 5⟩ ⟨0, 10⟩ rfl),
   zero_duration_overlap_rule.2 ⟨5, 5⟩ ⟨7, 7⟩ rfl rfl⟩

/-- Counterexample to claim C3: the list containing the malformed event
[10,5) (end before start) is processed without any error; no
ValidationError is raised, and the malformed event is even reported inside
a conflict with the enclosing event [0,20). -/
theorem malformed_events_counterexample :
    ((⟨10, 5⟩ : Event).stop ≤ (⟨10, 5⟩ : Event).start)
    ∧ analyzeScheduleConflicts [⟨10, 5⟩, ⟨0, 20⟩] = PyResult.ok [(0, 1)] := by decide

/-- Claim C3 as amended: the conflict detector never rejects its input —
for every event list, malformed events included, it returns the success
dict, and every event participates in the pairwise comparison with the
overlap predicate applied as-is. -/
theorem malformed_events_processed (events : List Event) :
    (analyzeScheduleConflicts events).isOk = true
    ∧ analyzeScheduleConflicts events = PyResult.ok (conflictPairs events)
    ∧ (∀ i j : Nat, (i, j) ∈ conflictPairs events ↔
        i < j ∧ j < events.length ∧
          eventsOverlap (events.getD i default) (events.getD j default) = true) :=
  ⟨rfl, rfl, mem_conflictPairs events⟩

/-- Witness for C3 at a concrete input with a malformed event: the
detector succeeds and pairs the malformed event with its encloser. -/
theorem malformed_events_processed_witness :
    (analyzeScheduleConflicts [⟨10, 5⟩, ⟨0, 20⟩]).isOk = true
    ∧ (0, 1) ∈ conflictPairs [⟨10, 5⟩, ⟨0, 20⟩] :=
  ⟨(malformed_events_processed [⟨10, 5⟩, ⟨0, 20⟩]).1,
   ((malformed_events_processed [⟨10, 5⟩, ⟨0, 20⟩]).2.2 0 1).mpr (by decide)⟩

/-- The late-evening filter over the evening bucket equals the hour ≥ 22
filter over all events. -/
theorem filter_late_evening (events : List SleepEvent) :
    (events.filter (fun e => decide (18 ≤ e.startHour))).filter
        (fun e => decide (22 ≤ e.startHour)) =
      events.filter (fun e => decide (22 ≤ e.startHour)) := by
  rw [List.filter_filter]
  apply List.filter_congr
  intro e _
  by_cases h : 22 ≤ e.startHour
  · have h18 : 18 ≤ e.startHour := by omega
    simp [h, h18]
  · simp [h]

/-- The early-morning filter over the morning bucket equals the hour ≤ 7
filter over all events. -/
theorem filter_early_morning (events : List SleepEvent) :
    (events.filter (fun e =>
        decide (¬ 18 ≤ e.startHour) && decide (e.startHour ≤ 8))).filter
        (fun e => decide (e.startHour ≤ 7)) =
      events.filter (fun e => decide (e.startHour ≤ 7)) := by
  rw [List.filter_filter]
  apply List.filter_congr
  intro e _
  by_cases h : e.startHour ≤ 7
  · have h18 : ¬ 18 ≤ e.startHour := by omega
    have h8 : e.startHour ≤ 8 := by omega
    simp [h, h18, h8]
  · simp [h]

/-- A filter is empty exactly when no element passes the any-test. -/
theorem filter_length_zero_iff_not_any (events : List SleepEvent)
    (p : SleepEvent → Bool) :
    (events.filter p).length = 0 ↔ ¬ events.any p = true := by
  rw [List.length_eq_zero, List.filter_eq_nil_iff, List.any_eq_true]
  constructor
  · rintro h ⟨e, he, hp⟩
    exact h e he hp
  · intro h e he hp
    exact h ⟨e, he, hp⟩

/-- Claim C4: the sleep estimator classifies evening iff start hour ≥ 18
and morning iff start hour ≤ 8, takes lateEvening as hour ≥ 22 and
earlyMorning as hour ≤ 7, applies the first-match rules 8.0 / 6.0 / 7.0,
and returns belowTarget = (estimatedSleepHours < sleepTargetHours) with
the two counts: it computes exactly the assessment described by the
specification. -/
theorem sleep_estimator_matches_spec (events : List SleepEvent)
    (sleepTargetHours : ℚ) :
    assessSleepImpact events sleepTargetHours =
      specSleepAssessment events sleepTargetHours := by
  unfold assessSleepImpact specSleepAssessment calculateSleepHours
  dsimp only
  rw [filter_late_evening, filter_early_morning]
  have hmorning :
      events.filter (fun e => decide (¬ 18 ≤ e.startHour) && decide (e.startHour ≤ 8)) =
        events.filter (fun e => decide (e.startHour ≤ 8)) := by
    apply List.filter_congr
    intro e _
    by_cases h : e.startHour ≤ 8
    · have h18 : ¬ 18 ≤ e.startHour := by omega
      simp [h, h18]
    · simp [h]
  rw [hmorning]
  have hlate := filter_length_zero_iff_not_any events (fun e => decide (22 ≤ e.startHour))
  have hearly := filter_length_zero_iff_not_any events (fun e => decide (e.startHour ≤ 7))
  by_cases hl : events.any (fun e => decide (22 ≤ e.startHour)) = true
  · have hL0 : ¬ (events.filter (fun e => decide (22 ≤ e.startHour))).length = 0 :=
      fun h => (hlate.mp h) hl
    have hLpos : 0 < (events.filter (fun e => decide (22 ≤ e.startHour))).length :=
      Nat.pos_of_ne_zero hL0
    simp [hl, hL0, hLpos]
  · have hL0 : (events.filter (fun e => decide (22 ≤ e.startHour))).length = 0 :=
      hlate.mpr hl
    by_cases he : events.any (fun e => decide (e.startHour ≤ 7)) = true
    · have hE0 : ¬ (events.filter (fun e => decide (e.startHour ≤ 7))).length = 0 :=
        fun h => (hearly.mp h) he
      simp [hl, he, hL0, hE0]
    · have hE0 : (events.filter (fun e => decide (e.startHour ≤ 7))).length = 0 :=
        hearly.mpr he
      simp [hl, he, hL0, hE0]

/-- The chat proposal builder in closed form: the three trigger lists in
order, or the generic block when none fired. -/
theorem generateProposalChangesChat_eq (p : String) :
    generateProposalChangesChat p =
      if (hasSubstr (pyLower p) "hectic" || hasSubstr (pyLower p) "busy") = false ∧
          (hasSubstr (pyLower p) "sleep" || hasSubstr (pyLower p) "tired") = false ∧
          (hasSubstr (pyLower p) "meeting" || hasSubstr (pyLower p) "conflict") = false
        then [optimizationBlockChange]
        else
          (if (hasSubstr (pyLower p) "hectic" || hasSubstr (pyLower p) "busy") = true
            then [focusTimeChange] else []) ++
          (if (hasSubstr (pyLower p) "sleep" || hasSubstr (pyLower p) "tired") = true
            then [eveningMoveChange] else []) ++
          (if (hasSubstr (pyLower p) "meeting" || hasSubstr (pyLower p) "conflict") = true
            then [meetingAdjustChange] else []) := by
  unfold generateProposalChangesChat
  dsimp only
  by_cases h1 : (hasSubstr (pyLower p) "hectic" || hasSubstr (pyLower p) "busy") = true <;>
    by_cases h2 : (hasSubstr (pyLower p) "sleep" || hasSubstr (pyLower p) "tired") = true <;>
      by_cases h3 : (hasSubstr (pyLower p) "meeting" || hasSubstr (pyLower p) "conflict") = true <;>
        simp [h1, h2, h3, Bool.not_eq_true] at *

/-- Counterexample to claim C6: the assistant implementation of
`_generate_proposal_changes` returns the empty list on problem text with no
trigger keyword — the output can be empty. -/
theorem proposal_builder_counterexample :
    generateProposalChangesAssistant "I need help organizing my day" = [] := by decide

/-- Claim C6 as amended: the chat implementation applies the triggers in
fixed order and is never empty — in particular hectic+sleep text without
meeting/conflict keywords gives exactly the two changes in trigger order,
and keyword-free text gives exactly the generic Optimization Block change;
the assistant implementation has only the hectic/busy and sleep triggers
and no fallback, so it returns the empty list when neither fires. -/
theorem proposal_builder_triggers (p : String) :
    generateProposalChangesChat p ≠ []
    ∧ ((hasSubstr (pyLower p) "hectic" || hasSubstr (pyLower p) "busy") = true →
        (hasSubstr (pyLower p) "sleep" || hasSubstr (pyLower p) "tired") = true →
        (hasSubstr (pyLower p) "meeting" || hasSubstr (pyLower p) "conflict") = false →
        generateProposalChangesChat p = [focusTimeChange, eveningMoveChange])
    ∧ ((hasSubstr (pyLower p) "hectic" || hasSubstr (pyLower p) "busy") = false →
        (hasSubstr (pyLower p) "sleep" || hasSubstr (pyLower p) "tired") = false →
        (hasSubstr (pyLower p) "meeting" || hasSubstr (pyLower p) "conflict") = false →
        generateProposalChangesChat p = [optimizationBlockChange])
    ∧ ((hasSubstr (pyLower p) "hectic" || hasSubstr (pyLower p) "busy") = false →
        hasSubstr (pyLower p) "sleep" = false →
        generateProposalChangesAssistant p = [])
    ∧ (focusTimeChange.type = "add" ∧ focusTimeChange.event.durationMinutes = 120
        ∧ eveningMoveChange.type = "move" ∧ eveningMoveChange.targetEventId.isSome = true
        ∧ meetingAdjustChange.type = "adjust" ∧ meetingAdjustChange.targetEventId.isSome = true
        ∧ optimizationBlockChange.type = "add"
        ∧ optimizationBlockChange.event.title = "Optimization Block") := by
  refine ⟨?_, ?_, ?_, ?_, by decide⟩
  · rw [generateProposalChangesChat_eq]
    by_cases h1 : (hasSubstr (pyLower p) "hectic" || hasSubstr (pyLower p) "busy") = true <;>
      by_cases h2 : (hasSubstr (pyLower p) "sleep" || hasSubstr (pyLower p) "tired") = true <;>
        by_cases h3 : (hasSubstr (pyLower p) "meeting" || hasSubstr (pyLower p) "conflict") = true <;>
          simp [h1, h2, h3, Bool.not_eq_true] at *
  · intro h1 h2 h3
    rw [generateProposalChangesChat_eq]
    simp [h1, h2, h3]
  · intro h1 h2 h3
    rw [generateProposalChangesChat_eq]
    simp [h1, h2, h3]
  · intro h1 h2
    unfold generateProposalChangesAssistant
    dsimp only
    simp [h1, h2]

/-- Witness for the amended C6 at concrete problem texts. -/
theorem proposal_builder_triggers_witness :
    generateProposalChangesChat "hectic sleep" = [focusTimeChange, eveningMoveChange]
    ∧ generateProposalChangesChat "help me please" = [optimizationBlockChange]
    ∧ generateProposalChangesAssistant "help me please" = [] :=
  ⟨(proposal_builder_triggers "hectic sleep").2.1 (by decide) (by decide) (by decide),
   (proposal_builder_triggers "help me please").2.2.1 (by decide) (by decide) (by decide),
   (proposal_builder_triggers "help me please").2.2.2.1 (by decide) (by decide)⟩

/-- Every proposal in a reachable context has revision 1 and no
predecessor reference: `_generate_schedule_proposal` hardcodes
`revision=1` and the dataclass default leaves `previous_proposal_id`
unset, and no other operation touches `proposals`. -/
theorem reachable_proposals_revision (ctx : Context) (h : Reachable ctx) :
    ∀ prop ∈ ctx.proposals, prop.revision = 1 ∧ prop.previousProposalId = none := by
  induction h with
  | init => intro prop hm; simp [initContext] at hm
  | setProblem ctx s hr hempty ih => intro prop hm; exact ih prop hm
  | askQuestion ctx q hr ih => intro prop hm; exact ih prop hm
  | recordAnswer ctx a hr ih => intro prop hm; exact ih prop hm
  | propose ctx pid problem hr ih =>
      intro prop hm
      simp only [generateScheduleProposal, List.mem_append, List.mem_singleton] at hm
      rcases hm with hm | rfl
      · exact ih prop hm
      · exact ⟨rfl, rfl⟩

/-- Claim C7: in every reachable conversation context, a proposal with no
predecessor has revision 1, and a proposal whose previousProposalId refers
to a predecessor has revision equal to the predecessor revision plus one. -/
theorem revision_chain_invariant (ctx : Context) (h : Reachable ctx) :
    ∀ prop ∈ ctx.proposals,
      (prop.previousProposalId = none → prop.revision = 1)
      ∧ (∀ pred ∈ ctx.proposals, prop.previousProposalId = some pred.id →
          prop.revision = pred.revision + 1) := by
  intro prop hm
  have hinv := reachable_proposals_revision ctx h prop hm
  refine ⟨fun _ => hinv.1, fun pred _ hsome => ?_⟩
  rw [hinv.2] at hsome
  exact absurd hsome (by simp)

/-- Witness for C7 on a concrete reachable context holding one generated
proposal. -/
theorem revision_chain_invariant_witness :
    (demoProposal.previousProposalId = none → demoProposal.revision = 1)
    ∧ (∀ pred ∈ demoContext.proposals,
        demoProposal.previousProposalId = some pred.id →
        demoProposal.revision = pred.revision + 1) :=
  revision_chain_invariant demoContext
    (Reachable.propose initContext "proposal_ab12cd34" "my schedule is so hectic"
      Reachable.init)
    demoProposal
    (by simp [demoContext, demoProposal, generateScheduleProposal, initContext])

/-- Claim C8 (code defect): on a collaborator response that meets all
three conditions of the claim — it contains a question mark, recorded
answers are fewer than recorded questions, and it does not contain the
word proposal — the chat classifier does not classify the response as a
clarifying question: it raises AttributeError, because
`response.lower().includes('proposal')` uses a JavaScript method that
Python strings do not have.  The assistant variant of the classification
(line 415) omits the proposal condition entirely: a response containing
the word proposal is still classified as a clarifying question. -/
theorem clarifying_question_classifier_bug :
    (hasSubstr "Which mornings work best?" "?" = true
      ∧ ([] : List String).length < (["What days are busy?"] : List String).length
      ∧ hasSubstr (pyLower "Which mornings work best?") "proposal" = false)
    ∧ isClarifyingQuestion
        { problemStatement := "p", clarifyingQuestions := ["What days are busy?"],
          userAnswers := [], proposals := [] } "Which mornings work best?" =
        Except.error (PyError.attributeError "str object has no attribute includes")
    ∧ assistantClassifiesQuestion
        { problemStatement := "p", clarifyingQuestions := ["What days are busy?"],
          userAnswers := [], proposals := [] } "Shall I draft a proposal now?" = true
    ∧ hasSubstr (pyLower "Shall I draft a proposal now?") "proposal" = true := by
  decide

/-- Counterexample to claim C9: a first turn whose collaborator call fails
does not leave the context exactly as it was — the problem statement has
already been recorded. -/
theorem turn_failure_counterexample :
    (processUserInput initContext "help me plan my week" (Except.error "timeout")).2 ≠
      initContext
    ∧ (processUserInput initContext "help me plan my week"
        (Except.error "timeout")).2.problemStatement = "help me plan my week"
    ∧ initContext.problemStatement = "" := by decide

/-- Claim C9 as amended: when the collaborator call fails, the assistant
entry point returns the structured error result (the chat entry point
returns a plain error string); clarifying questions, answers and proposals
are untouched, but the problem statement has been set from a first-turn
input before the failing call. -/
theorem turn_failure_structured_error (ctx : Context) (userInput e : String) :
    (processUserInput ctx userInput (Except.error e)).1 =
      TurnResult.errorResult ("I encountered an error: " ++ e)
        ["Try rephrasing your request", "Check your calendar permissions"]
    ∧ ((processUserInput ctx userInput (Except.error e)).1).isError = true
    ∧ (processUserInput ctx userInput (Except.error e)).2.clarifyingQuestions =
        ctx.clarifyingQuestions
    ∧ (processUserInput ctx userInput (Except.error e)).2.userAnswers = ctx.userAnswers
    ∧ (processUserInput ctx userInput (Except.error e)).2.proposals = ctx.proposals
    ∧ (processUserInput ctx userInput (Except.error e)).2.problemStatement =
        (if ctx.problemStatement = "" then userInput else ctx.problemStatement)
    ∧ (chatWithCalendarContext ctx userInput (Except.error e)).1 =
        "I encountered an error: " ++ e
    ∧ (chatWithCalendarContext ctx userInput (Except.error e)).2.clarifyingQuestions =
        ctx.clarifyingQuestions
    ∧ (chatWithCalendarContext ctx userInput (Except.error e)).2.userAnswers =
        ctx.userAnswers
    ∧ (chatWithCalendarContext ctx userInput (Except.error e)).2.proposals = ctx.proposals
    ∧ (chatWithCalendarContext ctx userInput (Except.error e)).2.problemStatement =
        (if ctx.problemStatement = "" then userInput else ctx.problemStatement) := by
  unfold processUserInput chatWithCalendarContext
  by_cases h : ctx.problemStatement = "" <;> simp [h, TurnResult.isError]

/-- Claim C10: similarity returns 0.0 out of the exception handler when
the computation fails (different lengths), and 0.0 from the zero-norm
guard (a vector has zero Euclidean norm exactly when its squared norm is
zero); it is a total function on all vector pairs. -/
theorem similarity_zero_guards (a b : List ℚ) :
    (a.length ≠ b.length → similarity a b = 0)
    ∧ (normSq a = 0 ∨ normSq b = 0 → similarity a b = 0) := by
  constructor
  · intro h
    simp [similarity, h]
  · intro h
    unfold similarity
    by_cases hl : a.length ≠ b.length
    · simp [hl]
    · simp [hl, h]

/-- Witness for C10 at concrete vectors: a length-mismatched pair and a
zero vector both give similarity 0. -/
theorem similarity_zero_guards_witness :
    similarity [1, 2] [3] = 0 ∧ similarity [0, 0] [1, 1] = 0 :=
  ⟨(similarity_zero_guards [1, 2] [3]).1 (by decide),
   (similarity_zero_guards [0, 0] [1, 1]).2 (Or.inl (by simp [normSq]))⟩

/-- The MD5 implementation reproduces the RFC 1321 test vector for the
empty message (digest d41d8cd98f00b204e9800998ecf8427e). -/
theorem md5_rfc_test_empty :
    md5 [] = [212, 29, 140, 217, 143, 0, 178, 4, 233, 128, 9, 152, 236, 248, 66, 126] := by
  decide

/-- The MD5 implementation reproduces the RFC 1321 test vector for "abc"
(digest 900150983cd24fb0d6963f7d28e17f72). -/
theorem md5_rfc_test_abc :
    md5 (strBytes "abc") =
      [144, 1, 80, 152, 60, 210, 79, 176, 214, 150, 63, 125, 40, 225, 127, 114] := by
  decide

/-- Reading the embedding at a valid position gives the per-dimension
value. -/
theorem generateFallbackEmbedding_getD (t : String) (i : Nat) (h : i < 768) :
    (generateFallbackEmbedding t).getD i 0 = fallbackDim t i := by
  unfold generateFallbackEmbedding
  rw [List.getD_eq_getElem?_getD, List.getElem?_map, List.getElem?_range h]
  rfl

/-- Reading the specification-side embedding at a valid position gives the
specification-side per-dimension value. -/
theorem specFallbackEmbedding_getD (t : String) (i : Nat) (h : i < 768) :
    (specFallbackEmbedding t).getD i 0 = specFallbackDim t i := by
  unfold specFallbackEmbedding
  rw [List.getD_eq_getElem?_getD, List.getElem?_map, List.getElem?_range h]
  rfl

/-- The 32-bit value the code extracts from the digest is below 2^32: the
first four digest bytes are the little-endian bytes of the first state
word. -/
theorem md5hex32_lt (msg : List Nat) : md5hex32 msg < 4294967296 := by
  have h : md5hex32 msg =
      (List.foldl md5Block md5Init (toBlocks (md5Pad msg))).a % 256 * 16777216 +
        (List.foldl md5Block md5Init (toBlocks (md5Pad msg))).a / 256 % 256 * 65536 +
        (List.foldl md5Block md5Init (toBlocks (md5Pad msg))).a / 65536 % 256 * 256 +
        (List.foldl md5Block md5Init (toBlocks (md5Pad msg))).a / 16777216 % 256 := rfl
  rw [h]
  omega

/-- Every dimension of the fallback embedding lies in [-1, 1). -/
theorem fallbackDim_bounds (t : String) (i : Nat) :
    -1 ≤ fallbackDim t i ∧ fallbackDim t i < 1 := by
  unfold fallbackDim
  dsimp only
  have hlt : md5hex32 (strBytes (fallbackSource t i ++ "_" ++ toString i)) < 4294967296 :=
    md5hex32_lt _
  constructor
  · have h0 : (0 : ℚ) ≤
        (md5hex32 (strBytes (fallbackSource t i ++ "_" ++ toString i)) : ℚ) / 2 ^ 31 := by
      positivity
    linarith
  · have h2 : (md5hex32 (strBytes (fallbackSource t i ++ "_" ++ toString i)) : ℚ) / 2 ^ 31 < 2 := by
      rw [div_lt_iff₀ (by positivity)]
      calc (md5hex32 (strBytes (fallbackSource t i ++ "_" ++ toString i)) : ℚ)
          < 4294967296 := by exact_mod_cast hlt
        _ = 2 * 2 ^ 31 := by norm_num
    linarith

/-- Counterexample to claim C5: on the text "a" the embedding the code
computes differs from the embedding prescribed by the specification
recipe, because the code reads the first eight hex characters of the
digest (its most significant 32 bits) where the specification says the low
32 bits of the hash value. -/
theorem fallback_embedding_counterexample :
    generateFallbackEmbedding "a" ≠ specFallbackEmbedding "a" := by
  intro heq
  have h0 : (generateFallbackEmbedding "a").getD 0 0 =
      (specFallbackEmbedding "a").getD 0 0 := by rw [heq]
  rw [generateFallbackEmbedding_getD "a" 0 (by norm_num),
    specFallbackEmbedding_getD "a" 0 (by norm_num)] at h0
  unfold fallbackDim specFallbackDim at h0
  dsimp only at h0
  have hcast :
      (md5hex32 (strBytes (fallbackSource "a" 0 ++ "_" ++ toString 0)) : ℚ) =
      (md5low32 (strBytes (fallbackSource "a" 0 ++ "_" ++ toString 0)) : ℚ) := by
    have h1 := sub_left_inj.mp h0
    field_simp at h1
    exact_mod_cast h1
  have hnat : md5hex32 (strBytes (fallbackSource "a" 0 ++ "_" ++ toString 0)) =
      md5low32 (strBytes (fallbackSource "a" 0 ++ "_" ++ toString 0)) := by
    exact_mod_cast hcast
  have hne : md5hex32 (strBytes (fallbackSource "a" 0 ++ "_" ++ toString 0)) ≠
      md5low32 (strBytes (fallbackSource "a" 0 ++ "_" ++ toString 0)) := by decide
  exact hne hnat

/-- Claim C5 as amended: the fallback embedding is a pure deterministic
function of the text; it always has length exactly 768 with every value in
[-1, 1); each dimension i selects the whole lowercased text when i is
within its length (else the lowercased whitespace-split word at index
i mod wordCount), hashes "{source}_{i}" with MD5, takes the first eight
hex characters of the digest (its most significant 32 bits) as an unsigned
integer, and normalizes via (value / 2^31) - 1.0. -/
theorem fallback_embedding_spec (t : String) :
    generateFallbackEmbedding t = generateFallbackEmbedding t
    ∧ (generateFallbackEmbedding t).length = 768
    ∧ (∀ i : Nat, i < 768 →
        -1 ≤ (generateFallbackEmbedding t).getD i 0
        ∧ (generateFallbackEmbedding t).getD i 0 < 1)
    ∧ (∀ i : Nat, i < 768 →
        (generateFallbackEmbedding t).getD i 0 =
          (md5hex32 (strBytes (fallbackSource t i ++ "_" ++ toString i)) : ℚ) / 2 ^ 31 - 1) := by
  refine ⟨rfl, by simp [generateFallbackEmbedding], ?_, ?_⟩
  · intro i hi
    rw [generateFallbackEmbedding_getD t i hi]
    exact fallbackDim_bounds t i
  · intro i hi
    rw [generateFallbackEmbedding_getD t i hi]
    rfl

/-- Witness for the amended C5 at a concrete text and dimension. -/
theorem fallback_embedding_spec_witness :
    -1 ≤ (generateFallbackEmbedding "plan my week").getD 0 0
    ∧ (generateFallbackEmbedding "plan my week").getD 0 0 < 1 :=
  (fallback_embedding_spec "plan my week").2.2.1 0 (by norm_num)

end HackCal


